import Mathlib

/-!
Verification of the double-entry ledger posting and balance-aggregation
engine of the IPSAS financial software backend.

The embedding follows `src/backend/journal_entries/models.py`,
`src/backend/chart_of_accounts/models.py`,
`src/backend/financial_statements/models.py` and
`src/backend/accounts/models.py`.  Monetary amounts are
`DecimalField(max_digits=15, decimal_places=2)` in the source; we model
them as integers counting cents, so `10000` stands for `100.00`.
Timestamps are abstracted as natural numbers.
-/

namespace IPSAS

/-- User roles, from `accounts.User.ROLE_CHOICES`:
admin, accountant, auditor, viewer, manager. -/
inductive Role where
  | admin
  | accountant
  | auditor
  | viewer
  | manager
deriving DecidableEq, Repr

/-- Journal entry lifecycle, from `JournalEntry.STATUS_CHOICES`:
draft, pending, approved, posted, rejected, cancelled. -/
inductive EntryStatus where
  | draft
  | pending
  | approved
  | posted
  | rejected
  | cancelled
deriving DecidableEq, Repr

/-- Financial period status, from `FinancialPeriod.STATUS_CHOICES`.
The source's string 'open' is rendered `opened` (Lean keyword clash). -/
inductive PeriodStatus where
  | opened
  | closed
  | locked
deriving DecidableEq, Repr

/-- Normal-balance polarity of an account, from the
`normal_balance` choices ('debit', 'credit') in `chart_of_accounts`. -/
inductive NormalBalance where
  | debit
  | credit
deriving DecidableEq, Repr

/-- The fields of `accounts.User` that the ledger logic reads. -/
structure User where
  id : Nat
  role : Role
deriving DecidableEq, Repr

/-- A `JournalEntryLine`: line number, referenced account (by id), and the
debit/credit amounts in cents. -/
structure JournalEntryLine where
  line_number : Nat
  account : Nat
  debit_amount : Int
  credit_amount : Int
deriving DecidableEq, Repr

/-- `JournalEntryLine.clean` from the source: rejects negative amounts,
lines with both debit and credit positive, and lines with neither. -/
def JournalEntryLine.clean (l : JournalEntryLine) : Except String Unit :=
  if l.debit_amount < 0 ∨ l.credit_amount < 0 then
    .error "Amounts cannot be negative"
  else if l.debit_amount > 0 ∧ l.credit_amount > 0 then
    .error "Line cannot have both debit and credit amounts"
  else if l.debit_amount = 0 ∧ l.credit_amount = 0 then
    .error "Line must have either debit or credit amount"
  else
    .ok ()

/-- The fields of `JournalEntry` that the ledger logic reads and writes. -/
structure JournalEntry where
  status : EntryStatus
  fiscal_year : Int
  fiscal_period : Int
  total_debits : Int
  total_credits : Int
  lines : List JournalEntryLine
  approved_by : Option Nat
  posted_by : Option Nat
  approved_at : Option Nat
  posted_at : Option Nat
deriving DecidableEq, Repr

/-- `JournalEntry.clean` from the source: total debits must equal total
credits, and the fiscal period must lie between 1 and 12. -/
def JournalEntry.clean (e : JournalEntry) : Except String Unit :=
  if e.total_debits ≠ e.total_credits then
    .error "Total debits must equal total credits"
  else if e.fiscal_period < 1 ∨ e.fiscal_period > 12 then
    .error "Fiscal period must be between 1 and 12"
  else
    .ok ()

/-- `JournalEntry.can_approve` from the source: the entry must be pending
and the user's role admin or manager. -/
def JournalEntry.can_approve (e : JournalEntry) (u : User) : Bool :=
  if e.status ≠ .pending then false
  else if u.role = .admin ∨ u.role = .manager then true
  else false

/-- `JournalEntry.can_post` from the source: the entry must be approved
and the user's role admin or accountant. -/
def JournalEntry.can_post (e : JournalEntry) (u : User) : Bool :=
  if e.status ≠ .approved then false
  else if u.role = .admin ∨ u.role = .accountant then true
  else false

/-- `JournalEntry.approve` from the source: guarded by `can_approve`,
sets status to approved and stamps approver identity and timestamp. -/
def JournalEntry.approve (e : JournalEntry) (u : User) (now : Nat) :
    Except String JournalEntry :=
  if ¬ e.can_approve u then .error "User cannot approve this entry"
  else .ok { e with
    status := .approved
    approved_by := some u.id
    approved_at := some now }

/-- The balance-update loop inside `JournalEntry.post`:
for each line, `line.account.current_balance += debit_amount - credit_amount`.
Account balances are a map from account id to balance in cents. -/
def applyLines (b : Nat → Int) (ls : List JournalEntryLine) : Nat → Int :=
  ls.foldl
    (fun bal l => fun a =>
      if a = l.account then bal a + (l.debit_amount - l.credit_amount)
      else bal a)
    b

/-- The net signed delta an entry's lines contribute to account `a`:
the sum over lines referencing `a` of debit minus credit. -/
def linesDelta (ls : List JournalEntryLine) (a : Nat) : Int :=
  (ls.map (fun l =>
    if a = l.account then l.debit_amount - l.credit_amount else 0)).sum

/-- The state that `JournalEntry.post` reads and writes: the entry itself,
the account balances, and the status of the entry's financial period.
The period is carried so that claims about period gating are statable;
the source's `post` never reads it. -/
structure LedgerState where
  entry : JournalEntry
  balances : Nat → Int
  period : PeriodStatus

/-- `JournalEntry.post` from the source: guarded by `can_post`, then in one
transaction adds each line's debit minus credit to the referenced account's
current balance, sets status to posted, and stamps poster identity and
timestamp.  No check of the financial period appears in the source. -/
def post (st : LedgerState) (u : User) (now : Nat) :
    Except String LedgerState :=
  if ¬ st.entry.can_post u then .error "User cannot post this entry"
  else .ok
    { entry := { st.entry with
        status := .posted
        posted_by := some u.id
        posted_at := some now }
      balances := applyLines st.balances st.entry.lines
      period := st.period }

/-- `JournalEntry.reverse` from the source: after the status guard the body
is only the comment "Create reversing entry logic here" and `pass`, so the
method returns None and creates no reversing entry. -/
def JournalEntry.reverse (e : JournalEntry) :
    Except String (Option JournalEntry) :=
  if e.status ≠ .posted then .error "Only posted entries can be reversed"
  else .ok none

/-- The fields of `ChartOfAccount` that its `clean` reads;
`type_normal_balance` is `self.type.normal_balance`. -/
structure ChartOfAccount where
  normal_balance : NormalBalance
  type_normal_balance : NormalBalance
  opening_balance : Int
  current_balance : Int
deriving DecidableEq, Repr

/-- `ChartOfAccount.clean` from the source: the account's polarity must
match its type's; a credit-normal account may not have a negative opening
balance; a debit-normal account may not have a positive opening balance. -/
def ChartOfAccount.clean (a : ChartOfAccount) : Except String Unit :=
  if a.normal_balance ≠ a.type_normal_balance then
    .error "Account normal balance must match account type normal balance"
  else if a.opening_balance < 0 ∧ a.normal_balance = .credit then
    .error "Credit accounts cannot have negative opening balances"
  else if a.opening_balance > 0 ∧ a.normal_balance = .debit then
    .error "Debit accounts cannot have positive opening balances"
  else
    .ok ()

/-- Django's `MinValueValidator(v)`: a value passes iff it is at least `v`. -/
def minValueValidator (v x : Int) : Bool := v ≤ x

/-- The field-level validators declared on `JournalEntry.fiscal_period` in
the source: `validators=[MinValueValidator(1), MinValueValidator(12)]`. -/
def fiscalPeriodFieldValid (p : Int) : Bool :=
  minValueValidator 1 p && minValueValidator 12 p

/-- The fiscal-period condition enforced by `JournalEntry.clean`:
an error is raised iff the period is below 1 or above 12. -/
def fiscalPeriodCleanValid (p : Int) : Bool :=
  if p < 1 ∨ p > 12 then false else true

/-- Full validation of the fiscal_period value: Django's `full_clean` runs
the field validators and then `clean`, so a value is accepted iff it
passes both. -/
def fullCleanFiscalPeriod (p : Int) : Bool :=
  fiscalPeriodFieldValid p && fiscalPeriodCleanValid p

/-- Whether an `Except` result is a success. -/
def exceptOk {α : Type} : Except String α → Bool
  | .ok _ => true
  | .error _ => false

/-- Modelled from the spec: the `submit` workflow transition
(draft → pending) is not implemented under `src/` — no submit method or
view exists, only the status value.  Spec section 4.2: "Transition
`submit`: draft→pending, permitted by the entry's author, requires the
Validator to pass."  We model it as the draft guard followed by the
source's validator `JournalEntry.clean`; on success the status becomes
pending. -/
def submitSpec (e : JournalEntry) : Except String JournalEntry :=
  if e.status ≠ .draft then .error "illegal transition"
  else
    match e.clean with
    | .error m => .error m
    | .ok _ => .ok { e with status := .pending }

/-- A `TrialBalanceLine`'s balance columns, from the source model:
opening, period and closing debit/credit totals in cents. -/
structure TrialBalanceLine where
  opening_debit : Int
  opening_credit : Int
  period_debit : Int
  period_credit : Int
  closing_debit : Int
  closing_credit : Int
deriving DecidableEq, Repr

/-- `TrialBalanceLine.get_opening_balance` from the source:
the opening debit column if positive, else the negated credit column. -/
def TrialBalanceLine.get_opening_balance (t : TrialBalanceLine) : Int :=
  if t.opening_debit > 0 then t.opening_debit else -t.opening_credit

/-- `TrialBalanceLine.get_closing_balance` from the source:
the closing debit column if positive, else the negated credit column. -/
def TrialBalanceLine.get_closing_balance (t : TrialBalanceLine) : Int :=
  if t.closing_debit > 0 then t.closing_debit else -t.closing_credit

/-- Store a signed balance into a (debit, credit) column pair, matching the
convention the source's getters decode: a positive balance sits in the
debit column, otherwise its negation sits in the credit column. -/
def storeBalance (v : Int) : Int × Int :=
  if v > 0 then (v, 0) else (0, -v)

/-- Total period debits of a set of posted lines. -/
def periodDebitTotal (ls : List JournalEntryLine) : Int :=
  (ls.map (fun l => l.debit_amount)).sum

/-- Total period credits of a set of posted lines. -/
def periodCreditTotal (ls : List JournalEntryLine) : Int :=
  (ls.map (fun l => l.credit_amount)).sum

/-- Modelled from the spec: the Trial Balance Aggregator
(spec section 4.4) is not implemented under `src/` — only the
`TrialBalance` and `TrialBalanceLine` storage models and their getters
exist.  Spec: "period debit/credit per account = sum over all posted
JournalEntryLines for that account; closing = opening ± period movement
according to the account's normal-balance polarity (debit-normal:
closing = opening + period_debit − period_credit; credit-normal:
closing = opening + period_credit − period_debit)."  `computeTBLine`
builds the stored line for one account from its polarity, its opening
balance, and its posted lines for the period. -/
def computeTBLine (pol : NormalBalance) (opening : Int)
    (ls : List JournalEntryLine) : TrialBalanceLine :=
  let pd := periodDebitTotal ls
  let pc := periodCreditTotal ls
  let closing :=
    match pol with
    | .debit => opening + pd - pc
    | .credit => opening + pc - pd
  { opening_debit := (storeBalance opening).1
    opening_credit := (storeBalance opening).2
    period_debit := pd
    period_credit := pc
    closing_debit := (storeBalance closing).1
    closing_credit := (storeBalance closing).2 }

/-! Sample data used by concrete theorems and witnesses. -/

/-- Sample user with the accountant role. -/
def accountantUser : User := { id := 2, role := .accountant }

/-- Sample user with the manager role. -/
def managerUser : User := { id := 1, role := .manager }

/-- Sample user with the admin role. -/
def adminUser : User := { id := 3, role := .admin }

/-- Line debiting account 0 (Cash) by 100.00. -/
def cashDebitLine : JournalEntryLine :=
  { line_number := 1, account := 0, debit_amount := 10000, credit_amount := 0 }

/-- Line crediting account 1 (Revenue) by 100.00. -/
def revenueCreditLine : JournalEntryLine :=
  { line_number := 2, account := 1, debit_amount := 0, credit_amount := 10000 }

/-- A submitted (pending) two-line entry: Cash debit 100.00,
Revenue credit 100.00. -/
def pendingEntry : JournalEntry :=
  { status := .pending, fiscal_year := 2025, fiscal_period := 1
    total_debits := 10000, total_credits := 10000
    lines := [cashDebitLine, revenueCreditLine]
    approved_by := none, posted_by := none
    approved_at := none, posted_at := none }

/-- The same entry in the approved state. -/
def approvedEntry : JournalEntry := { pendingEntry with status := .approved }

/-- The same entry in the posted state. -/
def postedEntry : JournalEntry := { pendingEntry with status := .posted }

/-- The same entry in the draft state. -/
def draftEntry : JournalEntry := { pendingEntry with status := .draft }

/-- An unbalanced draft entry: total debits 100.00, total credits 99.99. -/
def unbalancedEntry : JournalEntry :=
  { draftEntry with total_debits := 10000, total_credits := 9999 }

/-! Helper lemmas. -/

/-- The balance-update loop adds, account by account, the net signed delta
of the lines to the starting balances. -/
theorem applyLines_apply (ls : List JournalEntryLine) :
    ∀ (b : Nat → Int) (a : Nat),
      applyLines b ls a = b a + linesDelta ls a := by
  induction ls with
  | nil =>
    intro b a
    simp [applyLines, linesDelta]
  | cons l ls ih =>
    intro b a
    have hstep :
        applyLines b (l :: ls)
          = applyLines
              (fun a =>
                if a = l.account then b a + (l.debit_amount - l.credit_amount)
                else b a) ls := by
      simp [applyLines]
    rw [hstep, ih]
    simp only [linesDelta, List.map_cons, List.sum_cons]
    by_cases h : a = l.account
    · simp [h, linesDelta]
      ring
    · simp [h, linesDelta]

/-- The source's column storage and the getters' decoding are inverse:
decoding a stored signed balance returns the balance. -/
theorem storeBalance_decode (v : Int) :
    (if (storeBalance v).1 > 0 then (storeBalance v).1
     else -(storeBalance v).2) = v := by
  unfold storeBalance
  by_cases h : v > 0
  · simp [h]
  · simp [h]

/-! Claim theorems. -/

/-- C1: for every journal entry whose status is approved and every actor
with posting capability (role accountant or admin), `post` succeeds, adds
for each line the signed delta debit minus credit to the referenced
account's running balance (so each account's final balance is its initial
balance plus the entry's net delta for that account), sets the entry's
status to posted, and records the poster's identity and timestamp. -/
theorem post_applies_deltas_and_finalizes
    (st : LedgerState) (u : User) (now : Nat)
    (hs : st.entry.status = .approved)
    (hr : u.role = .accountant ∨ u.role = .admin) :
    ∃ st', post st u now = .ok st' ∧
      (∀ a, st'.balances a = st.balances a + linesDelta st.entry.lines a) ∧
      st'.entry.status = .posted ∧
      st'.entry.posted_by = some u.id ∧
      st'.entry.posted_at = some now := by
  have hcp : st.entry.can_post u = true := by
    unfold JournalEntry.can_post
    rcases hr with h | h <;> simp [hs, h]
  refine ⟨{ entry := { st.entry with
               status := .posted
               posted_by := some u.id
               posted_at := some now }
            balances := applyLines st.balances st.entry.lines
            period := st.period }, ?_, ?_, rfl, rfl, rfl⟩
  · unfold post
    simp [hcp]
  · intro a
    exact applyLines_apply st.entry.lines st.balances a

/-- Witness for C1: the concrete approved two-line entry posted by the
accountant from all-zero balances. -/
theorem post_applies_deltas_and_finalizes_witness :
    ∃ st', post ⟨approvedEntry, fun _ => 0, .opened⟩ accountantUser 9 = .ok st' ∧
      (∀ a, st'.balances a =
        (fun _ => (0 : Int)) a + linesDelta approvedEntry.lines a) ∧
      st'.entry.status = .posted ∧
      st'.entry.posted_by = some accountantUser.id ∧
      st'.entry.posted_at = some 9 :=
  post_applies_deltas_and_finalizes
    ⟨approvedEntry, fun _ => 0, .opened⟩ accountantUser 9 rfl (Or.inl rfl)

/-- C3 counterexample: with the entry's financial period closed, an
approved entry is still posted successfully by an admin and the Cash
balance changes, contradicting the claim that `post` fails and changes
nothing unless the period is open. -/
theorem post_succeeds_in_closed_period :
    ∃ st', post ⟨approvedEntry, fun _ => 0, .closed⟩ adminUser 7 = .ok st' ∧
      st'.entry.status = .posted ∧
      st'.balances 0 = 10000 ∧
      (10000 : Int) ≠ 0 := by
  refine ⟨_, rfl, rfl, ?_, by decide⟩
  decide

/-- C3 amended: `post` never consults the financial period: its outcome —
success or failure, the resulting entry, and the resulting balances — is
identical whatever the period's status; the period-open condition is not
checked at post time. -/
theorem post_ignores_period (st : LedgerState) (u : User) (now : Nat)
    (p : PeriodStatus) :
    post { st with period := p } u now =
      Except.map (fun s => { s with period := p }) (post st u now) := by
  unfold post
  by_cases h : st.entry.can_post u <;> simp [h, Except.map]

/-- C4 counterexample: a second post of an already posted entry fails with
the message "User cannot post this entry", not "already posted". -/
theorem post_posted_entry_error_message :
    post ⟨postedEntry, fun _ => 0, .opened⟩ accountantUser 3 =
      .error "User cannot post this entry" ∧
    "User cannot post this entry" ≠ "already posted" := by
  constructor
  · rfl
  · decide

/-- C4 amended: for every journal entry whose status is not approved (in
particular one already posted), `post` fails with the error "User cannot
post this entry" and returns no new state; hence after a successful post,
a second sequential post of the same entry fails with that error and the
total balance delta equals exactly one application of the entry's lines. -/
theorem post_not_approved_fails
    (st : LedgerState) (u u2 : User) (now now2 : Nat) :
    (st.entry.status ≠ .approved →
      post st u now = .error "User cannot post this entry") ∧
    (∀ st', post st u now = .ok st' →
      post st' u2 now2 = .error "User cannot post this entry" ∧
      ∀ a, st'.balances a = st.balances a + linesDelta st.entry.lines a) := by
  constructor
  · intro h
    have hcp : st.entry.can_post u = false := by
      unfold JournalEntry.can_post
      simp [h]
    unfold post
    simp [hcp]
  · intro st' hok
    unfold post at hok
    by_cases hcp : st.entry.can_post u
    · simp [hcp] at hok
      constructor
      · have hstatus : st'.entry.status = .posted := by
          rw [← hok]
        have hcp2 : st'.entry.can_post u2 = false := by
          unfold JournalEntry.can_post
          simp [hstatus]
        unfold post
        simp [hcp2]
      · intro a
        have hbal : st'.balances = applyLines st.balances st.entry.lines := by
          rw [← hok]
        rw [hbal]
        exact applyLines_apply st.entry.lines st.balances a
    · simp [hcp] at hok

/-- Witness for C4: the draft entry cannot be posted, and posting the
concrete approved entry then re-posting it fails while the balances carry
exactly one application of the lines. -/
theorem post_not_approved_fails_witness :
    post ⟨draftEntry, fun _ => 0, .opened⟩ accountantUser 1 =
      .error "User cannot post this entry" :=
  (post_not_approved_fails
    ⟨draftEntry, fun _ => 0, .opened⟩ accountantUser accountantUser 1 1).1
    (by decide)

/-- C2: an entry only transitions out of draft (via submit, which runs the
validator) when its total debits equal its total credits exactly; an entry
whose totals differ fails validation and never reaches pending. -/
theorem submit_requires_balanced (e : JournalEntry) :
    (∀ e', submitSpec e = .ok e' →
      e.total_debits = e.total_credits ∧ e'.status = .pending) ∧
    (e.total_debits ≠ e.total_credits →
      exceptOk (submitSpec e) = false) := by
  constructor
  · intro e' hok
    unfold submitSpec at hok
    by_cases hd : e.status = .draft
    · simp [hd] at hok
      by_cases hb : e.total_debits = e.total_credits
      · refine ⟨hb, ?_⟩
        unfold JournalEntry.clean at hok
        simp [hb] at hok
        by_cases hp : e.fiscal_period < 1 ∨ e.fiscal_period > 12
        · simp [hp] at hok
        · simp [hp] at hok
          rw [← hok]
      · unfold JournalEntry.clean at hok
        simp [hb] at hok
    · simp [hd] at hok
  · intro hb
    unfold submitSpec
    by_cases hd : e.status = .draft
    · unfold JournalEntry.clean
      simp [hd, hb, exceptOk]
    · simp [hd, exceptOk]

/-- Witness for C2: submitting the balanced two-line draft entry succeeds
with equal totals and pending status, and submitting the unbalanced draft
entry is not a success. -/
theorem submit_requires_balanced_witness :
    (draftEntry.total_debits = draftEntry.total_credits ∧
      (JournalEntry.status { draftEntry with status := .pending })
        = .pending) ∧
    exceptOk (submitSpec unbalancedEntry) = false :=
  ⟨(submit_requires_balanced draftEntry).1
      { draftEntry with status := .pending } rfl,
   (submit_requires_balanced unbalancedEntry).2 (by decide)⟩

/-- C5: evaluating the source's `reverse` on a posted entry returns None
and creates no reversing entry, while the spec (and the method's own
docstring, "Create a reversing entry") requires a new entry with the
debit/credit-swapped lines; the status guard for non-posted entries does
raise the documented error. -/
theorem reverse_creates_no_entry :
    postedEntry.reverse = .ok none ∧
    draftEntry.reverse = .error "Only posted entries can be reversed" := by
  constructor
  · rfl
  · rfl

/-- C6: full validation of `fiscal_period` combines the declared field
validators `[MinValueValidator(1), MinValueValidator(12)]` with `clean`,
so the in-range value 5 is rejected (the second validator demands a value
of at least 12), although the claim — and `clean` itself — accept the
whole range 1..12; only 12 survives both layers. -/
theorem fiscal_period_validator_rejects_in_range :
    fullCleanFiscalPeriod 5 = false ∧
    ((1 : Int) ≤ 5 ∧ (5 : Int) ≤ 12) ∧
    fiscalPeriodCleanValid 5 = true ∧
    fullCleanFiscalPeriod 12 = true ∧
    fullCleanFiscalPeriod 13 = false := by
  decide

/-- C7: a journal entry line passes `clean` exactly when both amounts are
non-negative and exactly one of debit/credit is strictly positive; lines
with both positive, both zero, or a negative amount are rejected. -/
theorem line_clean_iff (l : JournalEntryLine) :
    l.clean = .ok () ↔
      (0 ≤ l.debit_amount ∧ 0 ≤ l.credit_amount ∧
        ((0 < l.debit_amount ∧ l.credit_amount = 0) ∨
         (l.debit_amount = 0 ∧ 0 < l.credit_amount))) := by
  unfold JournalEntryLine.clean
  constructor
  · intro h
    by_cases h1 : l.debit_amount < 0 ∨ l.credit_amount < 0
    · simp [h1] at h
    · by_cases h2 : l.debit_amount > 0 ∧ l.credit_amount > 0
      · simp [h1, h2] at h
      · by_cases h3 : l.debit_amount = 0 ∧ l.credit_amount = 0
        · simp [h1, h2, h3] at h
        · push_neg at h1 h2 h3
          refine ⟨h1.1, h1.2, ?_⟩
          omega
  · intro h
    have h1 : ¬ (l.debit_amount < 0 ∨ l.credit_amount < 0) := by omega
    have h2 : ¬ (l.debit_amount > 0 ∧ l.credit_amount > 0) := by omega
    have h3 : ¬ (l.debit_amount = 0 ∧ l.credit_amount = 0) := by omega
    simp [h1, h2, h3]

/-- Witness for C7: the concrete Cash debit line passes `clean`. -/
theorem line_clean_iff_witness :
    JournalEntryLine.clean
      { line_number := 1, account := 0
        debit_amount := 10000, credit_amount := 0 } = .ok () :=
  (line_clean_iff _).mpr (by decide)

/-- C8: on every trial-balance line produced by the aggregator, the
closing balance decoded by the source's `get_closing_balance` equals the
opening balance decoded by `get_opening_balance` plus the period movement
oriented by the account's normal-balance polarity: period debits minus
period credits for a debit-normal account, period credits minus period
debits for a credit-normal account. -/
theorem trial_balance_closing_from_opening
    (pol : NormalBalance) (opening : Int) (ls : List JournalEntryLine) :
    (computeTBLine pol opening ls).get_closing_balance =
      (computeTBLine pol opening ls).get_opening_balance +
        (match pol with
         | .debit => periodDebitTotal ls - periodCreditTotal ls
         | .credit => periodCreditTotal ls - periodDebitTotal ls) := by
  have hopen :
      (computeTBLine pol opening ls).get_opening_balance = opening := by
    unfold computeTBLine TrialBalanceLine.get_opening_balance
    cases pol <;> exact storeBalance_decode opening
  rw [hopen]
  unfold computeTBLine TrialBalanceLine.get_closing_balance
  cases pol
  · have := storeBalance_decode
      (opening + periodDebitTotal ls - periodCreditTotal ls)
    simp only at this ⊢
    rw [this]
    ring
  · have := storeBalance_decode
      (opening + periodCreditTotal ls - periodDebitTotal ls)
    simp only at this ⊢
    rw [this]
    ring

/-- C9 counterexample: running the concrete scenario — the pending entry
(Cash debit 100.00, Revenue credit 100.00) approved by the manager and
posted by the accountant from all-zero balances — leaves Revenue's current
balance at -100.00, not +100.00 as the claim states: the posting loop adds
debit minus credit uniformly, so a credit decreases the stored balance. -/
theorem example_entry_revenue_balance_decreases :
    ∃ e1 st',
      pendingEntry.approve managerUser 5 = .ok e1 ∧
      post ⟨e1, fun _ => 0, .opened⟩ accountantUser 6 = .ok st' ∧
      st'.balances 1 = -10000 ∧
      ((-10000 : Int) ≠ 0 + 10000) := by
  refine ⟨_, _, rfl, rfl, ?_, by decide⟩
  decide

/-- C9 amended: in the concrete scenario — pending entry (Cash debit
100.00, Revenue credit 100.00), approved by a manager, posted by an
accountant over all-zero balances — Cash's current balance increases by
100.00, Revenue's current balance decreases by 100.00 (the engine stores
the signed value debit minus credit), and the entry's status is posted. -/
theorem example_entry_posting_outcome :
    ∃ e1 st',
      pendingEntry.approve managerUser 5 = .ok e1 ∧
      post ⟨e1, fun _ => 0, .opened⟩ accountantUser 6 = .ok st' ∧
      st'.balances 0 = 10000 ∧
      st'.balances 1 = -10000 ∧
      st'.entry.status = .posted := by
  refine ⟨_, _, rfl, rfl, ?_, ?_, rfl⟩
  · decide
  · decide

/-- C10: `ChartOfAccount.clean` rejects a credit-normal account with a
strictly negative opening balance and a debit-normal account with a
strictly positive opening balance; consequently every account that passes
`clean` has opening balance at most 0 when debit-normal and at least 0
when credit-normal. -/
theorem chart_clean_opening_balance_polarity (a : ChartOfAccount) :
    (a.normal_balance = .credit → a.opening_balance < 0 →
      exceptOk a.clean = false) ∧
    (a.normal_balance = .debit → a.opening_balance > 0 →
      exceptOk a.clean = false) ∧
    (a.clean = .ok () →
      (a.normal_balance = .debit → a.opening_balance ≤ 0) ∧
      (a.normal_balance = .credit → 0 ≤ a.opening_balance)) := by
  refine ⟨?_, ?_, ?_⟩
  · intro hc hneg
    unfold ChartOfAccount.clean exceptOk
    split_ifs with h1 h2 h3
    · rfl
    · rfl
    · rfl
    · exact absurd ⟨hneg, hc⟩ h2
  · intro hd hpos
    unfold ChartOfAccount.clean exceptOk
    split_ifs with h1 h2 h3
    · rfl
    · rfl
    · rfl
    · exact absurd ⟨hpos, hd⟩ h3
  · intro hok
    unfold ChartOfAccount.clean at hok
    split_ifs at hok with h1 h2 h3
    push_neg at h2 h3
    constructor
    · intro hd
      by_contra hpos
      push_neg at hpos
      exact absurd hd (h3 hpos)
    · intro hc
      by_contra hneg
      push_neg at hneg
      exact absurd hc (h2 hneg)

/-- Witness for C10: a credit-normal account with opening balance -1.00 is
rejected, and a debit-normal account with opening balance -0.50 that
passes `clean` indeed has a non-positive opening balance. -/
theorem chart_clean_opening_balance_polarity_witness :
    exceptOk (ChartOfAccount.clean
      { normal_balance := .credit, type_normal_balance := .credit
        opening_balance := -100, current_balance := 0 }) = false ∧
    ((-50 : Int) ≤ 0) :=
  ⟨(chart_clean_opening_balance_polarity
      { normal_balance := .credit, type_normal_balance := .credit
        opening_balance := -100, current_balance := 0 }).1
      rfl (by decide),
   ((chart_clean_opening_balance_polarity
      { normal_balance := .debit, type_normal_balance := .debit
        opening_balance := -50, current_balance := 0 }).2.2
      rfl).1 rfl⟩

end IPSAS
